import Mathlib

/-!
Verification of the tauri-test-cli command/session core.

This file gives a shallow embedding, in Lean, of the parts of the
TypeScript source that the specification's claims are about:

* the process-tree killer (`src/driver.ts`: `getDescendantPids`,
  `killProcessTree`),
* the driver supervisor state (`startDriver`, `connect`, `disconnect`,
  `stopDriver`),
* the DOM-stability wait (`waitForDomStable`),
* the screenshot strategy selection (the xvfb-aware `screenshot` handler),
* the command dispatch and batch runner (`executeCommand`, `executeBatch`
  in the CLI entry point),
* the `click`, `type` and `evaluate` handlers,
* the snapshot tree builder (`buildTree`, `toYaml`),
* the CLI `stopServer` helper.

Pure control flow is translated into Lean functions; interactions with the
outside world (the WebDriver bridge, the real DOM, the network) are
modelled by explicit oracle parameters that record what the external call
would have returned, so the surrounding control flow remains exactly the
source's.
-/

namespace TauriTest

/-! ## Process trees (driver.ts: getDescendantPids / killProcessTree)

A live process tree is modelled as a finite rose tree of pids.
`getDescendantPids` mirrors the recursive `pgrep -P` walk: for each direct
child it lists the child followed by the child's own descendants.
-/

/-- A process and its (direct-children) subtrees. -/
inductive PTree where
  | node (pid : Nat) (children : List PTree)
deriving Repr

/-- The root pid of a process tree. -/
def PTree.pid : PTree → Nat
  | .node p _ => p

/-- The direct-children subtrees of a process tree. -/
def PTree.children : PTree → List PTree
  | .node _ cs => cs

mutual

/-- Embeds `getDescendantPids` from `src/driver.ts`: all descendant pids
of the root, each direct child listed before that child's descendants
(`descendants.push(child, ...getDescendantPids(child))`). -/
def getDescendantPids : PTree → List Nat
  | .node _ cs => descListPids cs

/-- The descendant walk over a list of child subtrees, in order. -/
def descListPids : List PTree → List Nat
  | [] => []
  | c :: rest => c.pid :: (getDescendantPids c ++ descListPids rest)

end

/-- Embeds the kill order of `killProcessTree` from `src/driver.ts`:
the descendants list reversed (children killed first, bottom-up), then
the root pid itself. -/
def killAttempts (t : PTree) : List Nat :=
  (getDescendantPids t).reverse ++ [t.pid]

/-- One `try { process.kill(p, signal) } catch {}` step per pid: the
outcome oracle `ok` tells whether the kill succeeded, and a failure is
swallowed — the run continues to the next pid unconditionally. -/
def runKills (ok : Nat → Bool) : List Nat → List (Nat × Bool)
  | [] => []
  | p :: ps => (p, ok p) :: runKills ok ps

/-- Embeds `killProcessTree(pid, signal)`: attempts to kill every pid in
`killAttempts` order, recording each attempt's outcome and never
propagating a failure (the function is total for every outcome oracle). -/
def killProcessTreeRun (ok : Nat → Bool) (t : PTree) : List (Nat × Bool) :=
  runKills ok (killAttempts t)

/-- `s` is a subtree of `t` (reflexively): `s` is `t` itself, or a
subtree of one of `t`'s children.  `Subt s t` with `s ≠ t` means the root
of `s` is a strict descendant of the root of `t`, and the root of `s` is
an ancestor of everything in `s`'s own descendant list. -/
inductive Subt : PTree → PTree → Prop where
  | refl (t : PTree) : Subt t t
  | child {s c : PTree} {p : Nat} {cs : List PTree} :
      c ∈ cs → Subt s c → Subt s (.node p cs)

/-! ## Driver supervisor state (driver.ts: startDriver / connect /
disconnect / stopDriver)

The two module-level globals `driverProcess` and `browser` become an
explicit state record.  Handles are modelled as numbers.
-/

/-- The supervisor's global state: `driverProcess` (bridge process
handle) and `browser` (application session handle), both nullable. -/
structure DrvState where
  driverProcess : Option Nat
  browser : Option Nat
deriving Repr, DecidableEq

/-- The supervisor is idle when neither handle is retained. -/
def DrvState.isIdle (st : DrvState) : Bool :=
  st.driverProcess.isNone && st.browser.isNone

/-- Embeds `startDriver` from `src/driver.ts`: a no-op when a driver
process handle already exists (`if (driverProcess) return`), otherwise
spawns the wrapped bridge process (handle `newPid`).  The returned flag
records whether a new bridge process was spawned. -/
def startDriver (st : DrvState) (newPid : Nat) : DrvState × Bool :=
  match st.driverProcess with
  | some _ => (st, false)
  | none => ({ st with driverProcess := some newPid }, true)

/-- Effects of a `connect` call: whether a bridge process was spawned and
whether a new WebDriver session was opened against it. -/
structure ConnectEffects where
  spawnedBridge : Bool
  openedSession : Bool
deriving Repr, DecidableEq

/-- Embeds `connect` from `src/driver.ts`: returns the existing session
handle unchanged when one is active (`if (browser) return browser`);
otherwise ensures the driver is started and opens a new session
(handle `newSession`). -/
def connect (st : DrvState) (newPid newSession : Nat) :
    DrvState × Nat × ConnectEffects :=
  match st.browser with
  | some b => (st, b, ⟨false, false⟩)
  | none =>
    let (st1, spawned) := startDriver st newPid
    ({ st1 with browser := some newSession }, newSession, ⟨spawned, true⟩)

/-- Embeds `stopDriver` from `src/driver.ts`: force-kills the bridge
process tree when a handle is held and clears the handle.  Returns the
new state and the pid whose tree was killed, if any. -/
def stopDriver (st : DrvState) : DrvState × Option Nat :=
  match st.driverProcess with
  | some p => ({ st with driverProcess := none }, some p)
  | none => (st, none)

/-- Embeds `disconnect` from `src/driver.ts`.  The oracle `closeOk` says
whether `browser.deleteSession()` resolves.  Mirrors the source exactly:
when a session is active, `deleteSession` is awaited with no try/catch,
so on failure the error propagates before `browser = null` and before
`stopDriver()` — the state is left unchanged.  Returns the final state,
the pid whose tree was killed (if any), and the propagated error (if
any). -/
def disconnect (st : DrvState) (closeOk : Bool) :
    DrvState × Option Nat × Option String :=
  match st.browser with
  | some _ =>
    if closeOk then
      let (st1, killed) := stopDriver { st with browser := none }
      (st1, killed, none)
    else
      (st, none, some "session deletion failed")
  | none =>
    let (st1, killed) := stopDriver st
    (st1, killed, none)

/-! ## CLI stop helper (commands/utils.ts: stopServer) -/

/-- Outcome of the `fetch(url, { method: "POST" })` call in `stopServer`:
either a response arrived (with its `ok` flag, status code, and whether
the follow-up `response.json()` parse throws, carrying that error
message), or the fetch itself rejected with an error message. -/
inductive FetchOutcome where
  | response (ok : Bool) (status : Nat) (jsonError : Option String)
  | fetchError (msg : String)
deriving Repr

/-- Result record of `stopServer`. -/
structure StopResult where
  success : Bool
  message : String
deriving Repr, DecidableEq

/-- Whether the second character list occurs at the start of the first. -/
def charsStartWith : List Char → List Char → Bool
  | _, [] => true
  | [], _ :: _ => false
  | c :: cs, p :: ps => c == p && charsStartWith cs ps

/-- Whether the second character list occurs anywhere inside the first
(JavaScript `String.prototype.includes`). -/
def charsContain : List Char → List Char → Bool
  | [], p => p.isEmpty
  | c :: cs, p => charsStartWith (c :: cs) p || charsContain cs p

/-- JavaScript `message.includes(pat)` over Lean strings. -/
def strContains (s pat : String) : Bool :=
  charsContain s.toList pat.toList

/-- Embeds the connection-error test in `stopServer`'s catch block:
the message is checked for any of the four substrings that mean the
server was simply not listening. -/
def isConnError (msg : String) : Bool :=
  strContains msg "ECONNREFUSED" || strContains msg "fetch failed" ||
  strContains msg "Connection refused" || strContains msg "Unable to connect"

/-- The catch block of `stopServer`: a connection-refused style error is
success ("Server not running"); any other caught error is a failure
carrying the message. -/
def stopServerCatch (msg : String) : StopResult :=
  if isConnError msg then ⟨true, "Server not running"⟩ else ⟨false, msg⟩

/-- Embeds `stopServer(port)` from `src/commands/utils.ts` given the
fetch outcome: an `ok` response (with parseable body) is success
"Server stopped"; a non-`ok` response is a failure naming the status;
a thrown error (from `fetch` or from `response.json()`) goes through the
catch block. -/
def stopServer (outcome : FetchOutcome) : StopResult :=
  match outcome with
  | .response true _ none => ⟨true, "Server stopped"⟩
  | .response true _ (some jsonMsg) => stopServerCatch jsonMsg
  | .response false status _ => ⟨false, "Server returned status " ++ toString status⟩
  | .fetchError msg => stopServerCatch msg

/-! ## Screenshot strategy selection (the xvfb-aware screenshot handler)

The handler's control flow over the four capture strategies is embedded
with an environment record saying whether a virtual display is active and
which strategies would succeed.  The external capture calls themselves
(`captureWithX11`, `browser.takeScreenshot`, `captureWithHtml2Canvas`,
`captureWithCanvas`) are oracles: only their success/failure drives the
handler's branching.
-/

/-- The four capture strategies, by their reported `method` names. -/
inductive Method where
  | x11
  | native
  | html2canvas
  | canvas
deriving Repr, DecidableEq

/-- Capture environment: `xvfbDisplay` is `getXvfbDisplay()` (the active
virtual-display number, if any); the four flags say whether each capture
strategy would succeed if attempted. -/
structure CaptureEnv where
  xvfbDisplay : Option Nat
  x11Ok : Bool
  nativeOk : Bool
  html2canvasOk : Bool
  canvasOk : Bool
deriving Repr

/-- Embeds the strategy-selection control flow of the `screenshot`
handler (the xvfb-aware version):
1. if a virtual display is active, try X11 framebuffer capture first;
2. if no data yet AND no virtual display is active, try the native
   `takeScreenshot` (so native is skipped entirely under a virtual
   display);
3. if still no data, try html2canvas, and on its failure the canvas
   fallback;
4. exhausting everything is an error.
Returns the ordered list of attempted strategies and the outcome. -/
def screenshotRun (env : CaptureEnv) : List Method × Option Method :=
  let hasXvfb := env.xvfbDisplay.isSome
  let attempted1 : List Method := if hasXvfb then [.x11] else []
  let data1 : Option Method :=
    if hasXvfb && env.x11Ok then some .x11 else none
  let attempted2 :=
    if data1.isNone && !hasXvfb then attempted1 ++ [.native] else attempted1
  let data2 : Option Method :=
    if data1.isNone && !hasXvfb && env.nativeOk then some .native else data1
  let attempted3 :=
    if data2.isNone then attempted2 ++ [.html2canvas] else attempted2
  let data3 : Option Method :=
    if data2.isNone && env.html2canvasOk then some .html2canvas else data2
  let attempted4 :=
    if data2.isNone && !env.html2canvasOk then attempted3 ++ [.canvas] else attempted3
  let data4 : Option Method :=
    if data2.isNone && !env.html2canvasOk && env.canvasOk then some .canvas else data3
  (attempted4, data4)

/-! ## DOM stability wait (driver.ts: waitForDomStable)

The in-page script installs a `MutationObserver` and three timers.  Its
behaviour is a pure function of the observed mutation schedule, so it is
embedded as a small event-loop simulation over time-ordered mutation
events:

* a mutation batch whose type is attribute-only is ignored by the
  observer callback (`hasStructuralChange` filter);
* the first structural mutation before the 30ms grace deadline suppresses
  the grace timer; each structural mutation resets the settle timer to
  `settleTime` from now;
* `done` fires at the earliest of: the grace deadline (when no structural
  mutation preceded it), the pending settle deadline, and the absolute
  `timeout`.
-/

/-- The three `MutationRecord` types the observer can report. -/
inductive MutationType where
  | childList
  | characterData
  | attributes
deriving Repr, DecidableEq

/-- A mutation event at an instant (milliseconds from the start of the
wait). -/
structure MutationEvent where
  time : Nat
  mtype : MutationType
deriving Repr, DecidableEq

/-- The observer callback's `hasStructuralChange` test: `childList` and
`characterData` records are structural, `attributes` records are not. -/
def MutationType.isStructural : MutationType → Bool
  | .childList => true
  | .characterData => true
  | .attributes => false

/-- The times of the structural mutations in a schedule, in order; the
attribute-only events are exactly the ones the observer callback returns
early on. -/
def structuralTimes (evs : List MutationEvent) : List Nat :=
  (evs.filter (fun e => e.mtype.isStructural)).map (fun e => e.time)

/-- The timer simulation for `waitForDomStable`'s in-page script over
time-ordered structural mutation times.  The accumulator is the pending
settle deadline (`none` before any structural mutation, when only the
grace timer at `g` and the absolute timer at `t` are pending).
A mutation at time `m`:
* before any other deadline fires, sets/resets the settle deadline to
  `m + s`;
* at or after a pending deadline, arrives after `done` already ran and is
  ignored (the observer was disconnected).
The result is the time at which `done` first runs, clamped by the
absolute timeout `t`. -/
def domStableLoop (s t g : Nat) : List Nat → Option Nat → Nat
  | [], none => min g t
  | [], some d => min d t
  | m :: rest, none =>
    if m < g then domStableLoop s t g rest (some (m + s)) else min g t
  | m :: rest, some d =>
    if m ≤ d then domStableLoop s t g rest (some (m + s)) else min d t

/-- Embeds `waitForDomStable(settleTime, timeout)` with its fixed 30ms
grace window: the time at which the in-page script calls `done`, as a
function of the mutation schedule (which must be time-ordered). -/
def domStableReturn (evs : List MutationEvent) (settleTime timeout : Nat) : Nat :=
  domStableLoop settleTime timeout 30 (structuralTimes evs) none

/-! ## Click and type handlers (commands/click.ts, commands/type.ts)

The page is modelled as an association list from selectors to element
states; `browser.$(selector)` plus `isExisting()` is lookup.  The
webdriverio waits used by `waitForInteractive` are modelled from that
collaborator's documented behaviour: waiting on a selector that never
matches (or never becomes displayed/clickable) rejects at the timeout
with a message naming the selector.
-/

/-- Observable state of a matched element. -/
structure ElementState where
  displayed : Bool
  clickable : Bool
deriving Repr, DecidableEq

/-- A page: the first element matching each selector, if any. -/
def Page := List (String × ElementState)

/-- `browser.$(selector)` followed by existence inspection: the first
matching element's state, or `none` when the selector matches nothing. -/
def findElement (page : Page) (sel : String) : Option ElementState :=
  (List.find? (fun q => q.1 = sel) page).map (fun q => q.2)

/-- Modelled from the webdriverio collaborator: `waitForInteractive`
(driver.ts) runs `element.waitForDisplayed` then `element.waitForClickable`
with a shared timeout; each rejects with a selector-naming timeout message
when the element never reaches the required state (in particular when no
element matches the selector at all). -/
def waitForInteractive (page : Page) (sel : String) (timeout : Nat) :
    Except String Unit :=
  match findElement page sel with
  | none =>
    .error ("element (\"" ++ sel ++ "\") still not displayed after " ++
      toString timeout ++ "ms")
  | some e =>
    if !e.displayed then
      .error ("element (\"" ++ sel ++ "\") still not displayed after " ++
        toString timeout ++ "ms")
    else if !e.clickable then
      .error ("element (\"" ++ sel ++ "\") still not clickable after " ++
        toString timeout ++ "ms")
    else .ok ()

/-- Result record of the click handler. -/
structure ClickResult where
  selector : String
  success : Bool
  autoWaited : Bool
deriving Repr, DecidableEq

/-- Embeds `click(selector, options)` from `src/commands/click.ts`:
optional interactive pre-wait, then existence check (`Element not
found`), visibility check (`Element not visible`), then the click and an
optional post-wait (the post-wait has no bearing on the result record
beyond `autoWaited`). -/
def click (page : Page) (sel : String) (autoWait : Bool) (timeout : Nat) :
    Except String ClickResult :=
  match (if autoWait then waitForInteractive page sel timeout else .ok ()) with
  | .error e => .error e
  | .ok _ =>
    match findElement page sel with
    | none => .error ("Element not found: " ++ sel)
    | some e =>
      if !e.displayed then .error ("Element not visible: " ++ sel)
      else .ok ⟨sel, true, autoWait⟩

/-- Result record of the type handler. -/
structure TypeResult where
  selector : String
  text : String
  success : Bool
  autoWaited : Bool
deriving Repr, DecidableEq

/-- Embeds `type(selector, text, options)` from `src/commands/type.ts`:
optional interactive pre-wait, then existence check (`Element not
found`), then `setValue` and an optional post-wait. -/
def typeText (page : Page) (sel text : String) (autoWait : Bool)
    (timeout : Nat) : Except String TypeResult :=
  match (if autoWait then waitForInteractive page sel timeout else .ok ()) with
  | .error e => .error e
  | .ok _ =>
    match findElement page sel with
    | none => .error ("Element not found: " ++ sel)
    | some _ => .ok ⟨sel, text, true, autoWait⟩

/-! ## Script evaluation (the eval handler)

`evaluate(script)` first runs the script as a bare expression
(`return <script>`); if the bridge rejects that form it re-runs the
script wrapped in an immediately-invoked function body.  The two
`browser.execute` calls are oracles. -/

/-- An opaque value returned by the bridge for a script. -/
inductive CmdValue where
  | str (s : String)
  | num (n : Nat)
  | slept (ms : Nat)
deriving Repr, DecidableEq

/-- The bridge's responses to the two execution forms of a script:
`expr script` is `browser.execute("return " ++ script)` and
`stmt script` is the IIFE-wrapped `browser.execute` call. -/
structure EvalEnv where
  expr : String → Except String CmdValue
  stmt : String → Except String CmdValue

/-- Embeds `evaluate(script)` (the expression-first version shipped with
the xvfb-aware screenshot handler): try the bare-expression form, and
only if it is rejected fall back to the statement-block form; that
fallback's outcome, success or failure, is the handler's outcome. -/
def evaluate (env : EvalEnv) (script : String) : Except String CmdValue :=
  match env.expr script with
  | .ok v => .ok v
  | .error _ => env.stmt script

/-! ## Dispatch and batch execution (the CLI entry point)

`executeCommand` maps a parsed command record to a handler call after the
per-command validation checks; the handlers themselves are an oracle
record so that the dispatch and batch control flow is isolated.  The
TypeScript truthiness checks (`!cmd.selector` is true for a missing OR
empty selector, while `cmd.text === undefined` accepts an empty string)
are embedded exactly. -/

/-- A parsed batch command (the `BatchCommand` interface). -/
structure BatchCommand where
  cmd : String
  selector : Option String := none
  text : Option String := none
  script : Option String := none
  output : Option String := none
  fullPage : Option Bool := none
  timeout : Option Nat := none
  gone : Option Bool := none
  ms : Option Nat := none
  autoWait : Option Bool := none
deriving Repr, DecidableEq

/-- TypeScript truthiness of an optional string field: `undefined` and
the empty string are both falsy. -/
def falsyStr : Option String → Bool
  | none => true
  | some s => s = ""

/-- The command handlers, as oracles recording what each handler call
would return for given arguments. -/
structure Handlers where
  screenshot : Option String → Option Bool → Bool → Except String CmdValue
  snapshot : Option String → Bool → Except String CmdValue
  click : String → Bool → Option Nat → Except String CmdValue
  typeText : String → String → Bool → Option Nat → Except String CmdValue
  wait : String → Nat → Bool → Except String CmdValue
  eval : String → Except String CmdValue

/-- Embeds `executeCommand(cmd, globalAutoWait)` from the CLI entry
point: resolves the effective autoWait (per-command override, else the
global), validates required fields, and calls the matching handler; an
unknown command name is an error. -/
def executeCommand (h : Handlers) (globalAutoWait : Bool)
    (c : BatchCommand) : Except String CmdValue :=
  let autoWait := c.autoWait.getD globalAutoWait
  if c.cmd = "screenshot" then h.screenshot c.output c.fullPage autoWait
  else if c.cmd = "snapshot" then h.snapshot c.output autoWait
  else if c.cmd = "click" then
    if falsyStr c.selector then .error "click requires a selector"
    else h.click (c.selector.getD "") autoWait c.timeout
  else if c.cmd = "type" then
    if falsyStr c.selector || c.text.isNone then
      .error "type requires selector and text"
    else h.typeText (c.selector.getD "") (c.text.getD "") autoWait c.timeout
  else if c.cmd = "wait" then
    if falsyStr c.selector then .error "wait requires a selector"
    else h.wait (c.selector.getD "") (c.timeout.getD 5000) (c.gone.getD false)
  else if c.cmd = "eval" then
    if falsyStr c.script then .error "eval requires a script"
    else h.eval (c.script.getD "")
  else if c.cmd = "sleep" then .ok (.slept (c.ms.getD 1000))
  else .error ("Unknown command: " ++ c.cmd)

/-- One entry of the batch report (the `BatchResult` interface). -/
structure BatchResult where
  index : Nat
  cmd : String
  success : Bool
  result : Option CmdValue
  error : Option String
deriving Repr, DecidableEq

/-- Packs one command's outcome into its `BatchResult` entry, as the
try/catch in `executeBatch` does: a success carries the handler's result,
a failure carries the error message. -/
def mkBatchResult (i : Nat) (c : BatchCommand) :
    Except String CmdValue → BatchResult
  | .ok v => ⟨i, c.cmd, true, some v, none⟩
  | .error e => ⟨i, c.cmd, false, none, some e⟩

/-- The loop of `executeBatch` starting at index `i`: every command is
executed and reported; a failure is caught, recorded, and the loop
continues to the next command. -/
def executeBatchFrom (h : Handlers) (g : Bool) :
    Nat → List BatchCommand → List BatchResult
  | _, [] => []
  | i, c :: rest =>
    mkBatchResult i c (executeCommand h g c) :: executeBatchFrom h g (i + 1) rest

/-- Embeds `executeBatch(commands, globalAutoWait)` from the CLI entry
point. -/
def executeBatch (h : Handlers) (g : Bool)
    (cmds : List BatchCommand) : List BatchResult :=
  executeBatchFrom h g 0 cmds

/-! ## DOM snapshot (commands/snapshot.ts: buildTree / toYaml)

A DOM subtree is a rose tree of element nodes (tag, attributes, computed
style, hidden flag, child nodes) and text nodes.  The two document-wide
lookups the accessible-name computation performs
(`document.getElementById` for `aria-labelledby`, and
`label[for=id]` for inputs) are an environment of oracles returning the
found element's `textContent`, if any.
-/

/-- The computed style fields `buildTree` inspects. -/
structure StyleInfo where
  display : String
  visibility : String
deriving Repr, DecidableEq

/-- A DOM node: an element (with tag, attribute list, computed style,
`hidden` property, and child nodes in document order) or a text node. -/
inductive DomNode where
  | element (tag : String) (attrs : List (String × String))
      (style : StyleInfo) (hidden : Bool) (children : List DomNode)
  | text (s : String)
deriving Repr

/-- Document-wide lookups used by `getAccessibleName`:
`byId i` is the `textContent` of the element whose id is `i` (if one
exists), and `labelFor i` is the `textContent` of the first
`label[for="i"]` element (if one exists). -/
structure DocEnv where
  byId : String → Option String
  labelFor : String → Option String

/-- JavaScript `trim()` over a character list: leading and trailing
whitespace removed. -/
def charsTrim (l : List Char) : List Char :=
  ((l.dropWhile Char.isWhitespace).reverse.dropWhile Char.isWhitespace).reverse

/-- JavaScript `s.trim()` over Lean strings. -/
def strTrim (s : String) : String :=
  ⟨charsTrim s.toList⟩

/-- `el.getAttribute(k)`: the attribute's value, or `none` when absent. -/
def getAttr (attrs : List (String × String)) (k : String) : Option String :=
  (List.find? (fun q => q.1 = k) attrs).map (fun q => q.2)

/-- A truthy attribute read, as in `if (val)`: absent and empty-string
values are both falsy. -/
def truthyAttr (attrs : List (String × String)) (k : String) :
    Option String :=
  match getAttr attrs k with
  | some v => if v = "" then none else some v
  | none => none

/-- The tag-to-role table of `getRole`. -/
def roleMap (tag : String) : Option String :=
  List.lookup tag
    [("button", "button"), ("a", "link"), ("input", "textbox"),
     ("select", "combobox"), ("textarea", "textbox"), ("img", "img"),
     ("nav", "navigation"), ("main", "main"), ("header", "banner"),
     ("footer", "contentinfo"), ("aside", "complementary"),
     ("article", "article"), ("section", "region"), ("form", "form"),
     ("ul", "list"), ("ol", "list"), ("li", "listitem"),
     ("table", "table"), ("tr", "row"), ("td", "cell"),
     ("th", "columnheader"), ("h1", "heading"), ("h2", "heading"),
     ("h3", "heading"), ("h4", "heading"), ("h5", "heading"),
     ("h6", "heading"), ("dialog", "dialog")]

/-- Embeds `getRole`: the explicit truthy `role` attribute, else the
tag-role table, else the tag itself. -/
def getRole (tag : String) (attrs : List (String × String)) : String :=
  match truthyAttr attrs "role" with
  | some r => r
  | none => (roleMap tag).getD tag

mutual

/-- `node.textContent`: the concatenation of all descendant text. -/
def textContent : DomNode → String
  | .text s => s
  | .element _ _ _ _ cs => textContentList cs

/-- `textContent` over a child list, in order. -/
def textContentList : List DomNode → String
  | [] => ""
  | c :: rest => textContent c ++ textContentList rest

end

/-- Embeds `getAccessibleName`, rule by rule in source order:
truthy `aria-label`; `aria-labelledby` resolved through the document
(returning that element's trimmed text, empty or not, when it exists);
the associated `label[for=id]` text for inputs/textareas with a truthy
id; `alt` for images; own trimmed text for buttons and anchors;
otherwise the empty string. -/
def getAccessibleName (env : DocEnv) (tag : String)
    (attrs : List (String × String)) (children : List DomNode) : String :=
  let cand1 := truthyAttr attrs "aria-label"
  let cand2 : Option String :=
    match truthyAttr attrs "aria-labelledby" with
    | some lid => (env.byId lid).map strTrim
    | none => none
  let cand3 : Option String :=
    if tag = "input" || tag = "textarea" then
      match truthyAttr attrs "id" with
      | some i => (env.labelFor i).map strTrim
      | none => none
    else none
  let cand4 : Option String :=
    if tag = "img" then some ((getAttr attrs "alt").getD "") else none
  let cand5 : Option String :=
    if tag = "button" || tag = "a" then
      some (strTrim (textContentList children))
    else none
  ((((cand1.orElse (fun _ => cand2)).orElse (fun _ => cand3)).orElse
      (fun _ => cand4)).orElse (fun _ => cand5)).getD ""

/-- The attribute names `buildTree` copies into a node when truthy. -/
def relevantAttrNames : List String :=
  ["id", "class", "type", "name", "value", "placeholder", "href", "src",
   "disabled", "checked", "selected", "aria-expanded", "aria-pressed",
   "aria-checked", "data-testid"]

/-- The filtered attribute map of a node: each relevant attribute with a
truthy value, in `relevantAttrNames` order. -/
def filteredAttrs (attrs : List (String × String)) :
    List (String × String) :=
  relevantAttrNames.filterMap (fun k => (truthyAttr attrs k).map (fun v => (k, v)))

/-- The direct text of an element: its text-node children, each trimmed
and kept when nonempty with a trailing space, the whole then trimmed. -/
def directText (children : List DomNode) : String :=
  strTrim (children.foldl
    (fun acc c =>
      match c with
      | .text s => let t := strTrim s; if t = "" then acc else acc ++ t ++ " "
      | .element _ _ _ _ _ => acc)
    "")

/-- The tags exempt from empty-container pruning (intrinsically
meaningful even when empty). -/
def intrinsicTags : List String := ["img", "input", "textarea", "select"]

/-- A node of the produced accessibility tree, with the optional fields
exactly as `buildTree` returns them (`undefined` is `none`). -/
inductive SnapNode where
  | mk (role : String) (name : Option String) (text : Option String)
      (attrs : Option (List (String × String)))
      (children : Option (List SnapNode))
deriving Repr

/-- The role of a snapshot node. -/
def SnapNode.role : SnapNode → String
  | .mk r _ _ _ _ => r

mutual

/-- Embeds `buildTree(el, depth)` from `src/commands/snapshot.ts`:
depth cap at 10; `script`/`style`/`noscript` skipped; hidden and
`display:none`/`visibility:hidden` elements skipped; children built
recursively with `null` results dropped; an element with no accessible
name, no direct text, no surviving children and a non-intrinsic tag is
pruned (`null`); otherwise the node record with empty fields elided. -/
def buildTree (env : DocEnv) : DomNode → Nat → Option SnapNode
  | .text _, _ => none
  | .element tag attrs style hid children, depth =>
    if depth > 10 then none
    else if tag = "script" || tag = "style" || tag = "noscript" then none
    else if hid then none
    else if style.display = "none" || style.visibility = "hidden" then none
    else
      let name := getAccessibleName env tag attrs children
      let text := directText children
      let kids := buildChildren env children (depth + 1)
      if name = "" && text = "" && kids.isEmpty && !(intrinsicTags.contains tag)
      then none
      else
        some (.mk (getRole tag attrs)
          (if name = "" then none else some name)
          (if text = "" then none else some text)
          (if (filteredAttrs attrs).isEmpty then none else some (filteredAttrs attrs))
          (if kids.isEmpty then none else some kids))

/-- The child loop of `buildTree`: `el.children` iterates element
children only; a child whose `buildTree` is `null` contributes nothing. -/
def buildChildren (env : DocEnv) : List DomNode → Nat → List SnapNode
  | [], _ => []
  | .text _ :: rest, depth => buildChildren env rest depth
  | .element tag attrs style hid cs :: rest, depth =>
    match buildTree env (.element tag attrs style hid cs) depth with
    | some n => n :: buildChildren env rest depth
    | none => buildChildren env rest depth

end

/-- The inline attribute markers of `toYaml`: `#id`, up to two classes,
`[type=...]`, `[disabled]`, `[checked]`. -/
def inlineMarkers (attrs : Option (List (String × String))) : String :=
  match attrs with
  | none => ""
  | some l =>
    let part1 :=
      match getAttr l "id" with
      | some i => ["#" ++ i]
      | none => []
    let part2 :=
      match getAttr l "class" with
      | some c =>
        let classes := String.intercalate "." ((c.splitOn " ").take 2)
        if classes = "" then [] else ["." ++ classes]
      | none => []
    let part3 :=
      match getAttr l "type" with
      | some ty => ["[type=" ++ ty ++ "]"]
      | none => []
    let part4 := if (getAttr l "disabled").isSome then ["[disabled]"] else []
    let part5 := if (getAttr l "checked").isSome then ["[checked]"] else []
    let parts := part1 ++ part2 ++ part3 ++ part4 ++ part5
    if parts.isEmpty then "" else " " ++ String.join parts

mutual

/-- The non-null case of `toYaml(node, indent)` from
`src/commands/snapshot.ts`: one line `- role ["name"] markers [: "text"]`
at two spaces per indent level, followed by the children one level
deeper. -/
def toYamlNode : SnapNode → Nat → String
  | .mk role name text attrs children, indent =>
    let spaces := String.join (List.replicate indent "  ")
    let line1 := spaces ++ "- " ++ role
    let line2 :=
      match name with
      | some n => line1 ++ " \"" ++ n ++ "\""
      | none => line1
    let line3 := line2 ++ inlineMarkers attrs
    let line4 :=
      match text, name with
      | some t, none =>
        let shown := if t.length > 50 then t.take 50 ++ "..." else t
        line3 ++ ": \"" ++ shown ++ "\""
      | _, _ => line3
    line4 ++ "\n" ++
      (match children with
       | none => ""
       | some cs => toYamlList cs (indent + 1))

/-- The child loop of `toYaml`. -/
def toYamlList : List SnapNode → Nat → String
  | [], _ => ""
  | c :: rest, indent => toYamlNode c indent ++ toYamlList rest indent

end

/-- Embeds `toYaml(node, indent)` including its null guard: a `null`
node produces no output at all (`if (!node) return ""`). -/
def toYaml : Option SnapNode → Nat → String
  | none, _ => ""
  | some n, indent => toYamlNode n indent

/-- Sample handler oracles for concrete batch runs: click, type, wait and
snapshot succeed, eval always reports a script failure. -/
def sampleHandlers : Handlers where
  screenshot := fun _ _ _ => .ok (.num 0)
  snapshot := fun _ _ => .ok (.str "- body")
  click := fun _ _ _ => .ok (.num 1)
  typeText := fun _ _ _ _ => .ok (.num 2)
  wait := fun _ _ _ => .ok (.num 3)
  eval := fun _ => .error "script threw"

/-- Sample batch: a succeeding click, a failing eval, then a sleep that
must still run. -/
def sampleBatch : List BatchCommand :=
  [{ cmd := "click", selector := some "#btn" },
   { cmd := "eval", script := some "boom()" },
   { cmd := "sleep", ms := some 5 }]

/-! ## Theorems -/

theorem descListPids_append (x y : List PTree) :
    descListPids (x ++ y) = descListPids x ++ descListPids y := by
  induction x with
  | nil => simp [descListPids]
  | cons c rest ih => simp [descListPids, ih]

theorem runKills_map_fst (ok : Nat → Bool) (l : List Nat) :
    (runKills ok l).map Prod.fst = l := by
  induction l with
  | nil => rfl
  | cons p ps ih => simp [runKills, ih]

/-- Every subtree's kill sequence is a contiguous block of the whole
tree's kill sequence. -/
theorem killAttempts_subtree {s t : PTree} (h : Subt s t) :
    ∃ A B, killAttempts t = A ++ killAttempts s ++ B := by
  induction h with
  | refl => exact ⟨[], [], by simp⟩
  | @child c p cs hmem hsub ih =>
    obtain ⟨A, B, hAB⟩ := ih
    obtain ⟨u, v, huv⟩ := List.append_of_mem hmem
    refine ⟨(descListPids v).reverse ++ A, B ++ ((descListPids u).reverse ++ [p]), ?_⟩
    have hkill : killAttempts (.node p cs) =
        (descListPids v).reverse ++ killAttempts c ++
          ((descListPids u).reverse ++ [p]) := by
      simp [killAttempts, getDescendantPids, huv, descListPids_append,
        descListPids, PTree.pid, List.append_assoc]
    rw [hkill, hAB]
    simp [List.append_assoc]

/-- C3.  For every process tree and every subtree of it, `killProcessTree`
kills all of that subtree's descendants before the subtree's root (so
every descendant dies before each of its ancestors), kills the overall
root pid last, and for every per-process kill outcome the run still
attempts every pid in the same order — individual failures are swallowed,
never raised. -/
theorem killProcessTree_spec (t s : PTree) (ok : Nat → Bool)
    (h : Subt s t) :
    (∃ l1 l2, killAttempts t = l1 ++ l2 ∧
        (∀ u ∈ getDescendantPids s, u ∈ l1) ∧ s.pid ∈ l2) ∧
    (killAttempts t).getLast? = some t.pid ∧
    (killProcessTreeRun ok t).map Prod.fst = killAttempts t := by
  refine ⟨?_, ?_, runKills_map_fst ok _⟩
  · obtain ⟨A, B, hAB⟩ := killAttempts_subtree h
    refine ⟨A ++ (getDescendantPids s).reverse, s.pid :: B, ?_, ?_, ?_⟩
    · rw [hAB]; simp [killAttempts, List.append_assoc]
    · intro u hu
      simp only [List.mem_append, List.mem_reverse]
      exact Or.inr hu
    · simp
  · simp [killAttempts]

/-- Witness for C3 on a depth-3 chain with an always-failing kill
oracle. -/
theorem killProcessTree_spec_witness :
    (∃ l1 l2,
        killAttempts (.node 1 [.node 2 [.node 4 [], .node 5 []], .node 3 []]) =
          l1 ++ l2 ∧
        (∀ u ∈ getDescendantPids (.node 2 [.node 4 [], .node 5 []]), u ∈ l1) ∧
        (PTree.node 2 [.node 4 [], .node 5 []]).pid ∈ l2) ∧
    (killAttempts (.node 1 [.node 2 [.node 4 [], .node 5 []], .node 3 []])).getLast? =
      some (PTree.node 1 [.node 2 [.node 4 [], .node 5 []], .node 3 []]).pid ∧
    (killProcessTreeRun (fun _ => false)
        (.node 1 [.node 2 [.node 4 [], .node 5 []], .node 3 []])).map Prod.fst =
      killAttempts (.node 1 [.node 2 [.node 4 [], .node 5 []], .node 3 []]) :=
  killProcessTree_spec _ _ (fun _ => false)
    (Subt.child (List.mem_cons_self _ _) (Subt.refl _))

/-- C4.  While a session is active, `connect` returns the existing
session handle, leaves the supervisor state unchanged, spawns no second
bridge process and opens no second application session. -/
theorem connect_idempotent_while_connected (st : DrvState)
    (b newPid newSession : Nat) (h : st.browser = some b) :
    connect st newPid newSession = (st, b, ⟨false, false⟩) := by
  simp [connect, h]

/-- Witness for C4 at a connected state. -/
theorem connect_idempotent_while_connected_witness :
    connect ⟨some 4444, some 7⟩ 8 9 = (⟨some 4444, some 7⟩, 7, ⟨false, false⟩) :=
  connect_idempotent_while_connected ⟨some 4444, some 7⟩ 7 8 9 rfl

/-- Counterexample for C7 as stated: with an active session whose
`deleteSession` call fails, `disconnect` does NOT leave the supervisor
idle — the error propagates before any cleanup, the session handle stays
retained, and the bridge process tree is not killed. -/
theorem disconnect_not_always_idle_counterexample :
    (disconnect ⟨some 4444, some 7⟩ false).1 = ⟨some 4444, some 7⟩ ∧
    (disconnect ⟨some 4444, some 7⟩ false).1.isIdle = false ∧
    (disconnect ⟨some 4444, some 7⟩ false).2.1 = none ∧
    (disconnect ⟨some 4444, some 7⟩ false).2.2.isSome = true := by
  decide

/-- C7 (amended).  `disconnect` closes the application session,
force-kills the bridge process tree, and leaves the supervisor idle
whenever the session close succeeds or no session is active; but when
closing the session fails, the error propagates, the state is left
unchanged (the session handle is retained) and the bridge tree is not
killed. -/
theorem disconnect_spec (st : DrvState) (closeOk : Bool) :
    ((closeOk = true ∨ st.browser = none) →
       (disconnect st closeOk).1 = ⟨none, none⟩ ∧
       (disconnect st closeOk).2.2 = none ∧
       ∀ p, st.driverProcess = some p → (disconnect st closeOk).2.1 = some p) ∧
    (closeOk = false → ∀ b, st.browser = some b →
       (disconnect st closeOk).1 = st ∧
       (disconnect st closeOk).2.1 = none ∧
       (disconnect st closeOk).2.2.isSome = true) := by
  obtain ⟨dp, br⟩ := st
  constructor
  · rintro (rfl | h)
    · cases br <;> cases dp <;> simp [disconnect, stopDriver]
    · simp only at h
      subst h
      cases dp <;> simp [disconnect, stopDriver]
  · rintro rfl b hb
    simp only at hb
    subst hb
    simp [disconnect, stopDriver]

/-- Witness for C7 (amended): a clean close from a fully connected state
reaches the idle state and kills the bridge tree. -/
theorem disconnect_spec_witness :
    (disconnect ⟨some 4444, some 7⟩ true).1 = ⟨none, none⟩ ∧
    (disconnect ⟨some 4444, some 7⟩ true).2.2 = none ∧
    (disconnect ⟨some 4444, some 7⟩ true).2.1 = some 4444 := by
  have h := (disconnect_spec ⟨some 4444, some 7⟩ true).1 (Or.inl rfl)
  exact ⟨h.1, h.2.1, h.2.2 4444 rfl⟩

/-- C8.  `evaluate` first attempts the bare-expression form: when that
form succeeds its value is the result (the statement form is never
consulted); when it is rejected the handler's outcome is exactly the
statement-block form's outcome; and the handler fails only when both
forms fail. -/
theorem evaluate_spec (env : EvalEnv) (script : String) :
    (∀ v, env.expr script = .ok v → evaluate env script = .ok v) ∧
    (∀ e, env.expr script = .error e → evaluate env script = env.stmt script) ∧
    (∀ msg, evaluate env script = .error msg →
       (∃ e1, env.expr script = .error e1) ∧ env.stmt script = .error msg) := by
  refine ⟨?_, ?_, ?_⟩
  · intro v hv; simp [evaluate, hv]
  · intro e he; simp [evaluate, he]
  · intro msg hmsg
    cases hexpr : env.expr script with
    | ok v => simp [evaluate, hexpr] at hmsg
    | error e1 =>
      refine ⟨⟨e1, rfl⟩, ?_⟩
      simpa [evaluate, hexpr] using hmsg

/-- Witness for C8 on concrete bridge responses: an accepted expression
short-circuits, and a rejected expression falls back to the statement
form. -/
theorem evaluate_spec_witness :
    evaluate ⟨fun _ => .ok (.str "t"), fun _ => .error "unused"⟩ "document.title" =
      .ok (.str "t") ∧
    evaluate ⟨fun _ => .error "SyntaxError", fun _ => .ok (.num 3)⟩ "let x = 3; return x" =
      .ok (.num 3) :=
  ⟨(evaluate_spec ⟨fun _ => .ok (.str "t"), fun _ => .error "unused"⟩
      "document.title").1 (.str "t") rfl,
   (evaluate_spec ⟨fun _ => .error "SyntaxError", fun _ => .ok (.num 3)⟩
      "let x = 3; return x").2.1 "SyntaxError" rfl⟩

/-- C10.  `stopServer` treats an unreachable server as success: a fetch
rejection whose message marks a connection-refused / fetch-failed
condition yields success with message "Server not running"; any other
rejection is a failure carrying the message; a non-OK HTTP response is a
failure naming the status; an OK response is a plain success. -/
theorem stopServer_spec (msg : String) (status : Nat)
    (jsonErr : Option String) :
    (isConnError msg = true →
       stopServer (.fetchError msg) = ⟨true, "Server not running"⟩) ∧
    (isConnError msg = false →
       stopServer (.fetchError msg) = ⟨false, msg⟩) ∧
    stopServer (.response false status jsonErr) =
      ⟨false, "Server returned status " ++ toString status⟩ ∧
    stopServer (.response true status none) = ⟨true, "Server stopped"⟩ := by
  refine ⟨?_, ?_, rfl, rfl⟩
  · intro h; simp [stopServer, stopServerCatch, h]
  · intro h; simp [stopServer, stopServerCatch, h]

/-- Witness for C10: a connection-refused fetch failure is reported as
the server simply not running, and an unrelated failure is not. -/
theorem stopServer_spec_witness :
    stopServer (.fetchError "connect ECONNREFUSED 127.0.0.1:19999") =
      ⟨true, "Server not running"⟩ ∧
    stopServer (.fetchError "boom") = ⟨false, "boom"⟩ :=
  ⟨(stopServer_spec "connect ECONNREFUSED 127.0.0.1:19999" 0 none).1 (by decide),
   (stopServer_spec "boom" 0 none).2.1 (by decide)⟩

/-- C1.  While a virtual display is active, the native whole-window
screenshot is never attempted; the first attempted strategy is the X11
framebuffer capture, and on its failure the handler falls through to
html2canvas and then the canvas fallback; conversely the native path is
attempted only when no virtual display is active. -/
theorem screenshot_strategy_spec (env : CaptureEnv) :
    (env.xvfbDisplay.isSome = true →
       Method.native ∉ (screenshotRun env).1 ∧
       (screenshotRun env).1.head? = some Method.x11 ∧
       (env.x11Ok = false →
         (screenshotRun env).1 =
           Method.x11 :: Method.html2canvas ::
             (if env.html2canvasOk then [] else [Method.canvas]))) ∧
    (Method.native ∈ (screenshotRun env).1 → env.xvfbDisplay = none) := by
  obtain ⟨xd, x11Ok, natOk, h2cOk, canvasOk⟩ := env
  cases xd <;> cases x11Ok <;> cases natOk <;> cases h2cOk <;> cases canvasOk <;>
    simp [screenshotRun]

/-- Witness for C1: virtual display active and X11 capture failing. -/
theorem screenshot_strategy_spec_witness :
    Method.native ∉ (screenshotRun ⟨some 99, false, true, true, true⟩).1 ∧
    (screenshotRun ⟨some 99, false, true, true, true⟩).1.head? = some Method.x11 ∧
    (screenshotRun ⟨some 99, false, true, true, true⟩).1 =
      [Method.x11, Method.html2canvas] := by
  have h := (screenshot_strategy_spec ⟨some 99, false, true, true, true⟩).1 rfl
  exact ⟨h.1, h.2.1, by simpa using h.2.2 rfl⟩

theorem domStableLoop_le (s t g : Nat) (l : List Nat) (d : Option Nat) :
    domStableLoop s t g l d ≤ t := by
  induction l generalizing d with
  | nil => cases d <;> simp [domStableLoop]
  | cons m rest ih =>
    cases d with
    | none =>
      simp only [domStableLoop]
      split
      · exact ih _
      · simp
    | some d0 =>
      simp only [domStableLoop]
      split
      · exact ih _
      · simp

theorem domStableLoop_settle (s t g : Nat) (m : Nat) (rest : List Nat)
    (hchain : List.Chain' (fun a b => a ≤ b ∧ b ≤ a + s) (m :: rest)) :
    domStableLoop s t g rest (some (m + s)) =
      min ((m :: rest).getLast (List.cons_ne_nil m rest) + s) t := by
  induction rest generalizing m with
  | nil => simp [domStableLoop]
  | cons m2 rest2 ih =>
    have h12 : m2 ≤ m + s := (List.chain'_cons.mp hchain).1.2
    have hchain2 : List.Chain' (fun a b => a ≤ b ∧ b ≤ a + s) (m2 :: rest2) :=
      (List.chain'_cons.mp hchain).2
    simp only [domStableLoop, if_pos h12]
    rw [ih m2 hchain2]
    rfl

/-- C2.  `waitForDomStable` with settle time `s` and timeout `t` (grace
window 30ms): it never returns later than `t`, even under continuous
mutation; when no structural mutation occurs during the grace window it
returns exactly at the grace deadline; when structural mutations do occur
before the grace deadline and each follows within `s` of the previous,
it returns once `s` has elapsed after the last structural mutation
(clamped by `t`); and attribute-only mutation events never affect the
return time at all. -/
theorem waitForDomStable_spec :
    (∀ evs s t, domStableReturn evs s t ≤ t) ∧
    (∀ evs s t, 30 ≤ t → (∀ m ∈ structuralTimes evs, ¬ m < 30) →
       domStableReturn evs s t = 30) ∧
    (∀ evs s t m rest, structuralTimes evs = m :: rest → m < 30 →
       List.Chain' (fun a b => a ≤ b ∧ b ≤ a + s) (m :: rest) →
       domStableReturn evs s t =
         min ((m :: rest).getLast (List.cons_ne_nil m rest) + s) t) ∧
    (∀ evs1 evs2 time s t,
       domStableReturn (evs1 ++ ⟨time, .attributes⟩ :: evs2) s t =
         domStableReturn (evs1 ++ evs2) s t) := by
  refine ⟨?_, ?_, ?_, ?_⟩
  · intro evs s t
    exact domStableLoop_le s t 30 _ _
  · intro evs s t ht hall
    unfold domStableReturn
    cases hst : structuralTimes evs with
    | nil => simp [domStableLoop, Nat.min_eq_left ht]
    | cons m rest =>
      have hm : ¬ m < 30 := hall m (by rw [hst]; exact List.mem_cons_self m rest)
      simp [domStableLoop, hm, Nat.min_eq_left ht]
  · intro evs s t m rest hst hm hchain
    unfold domStableReturn
    rw [hst]
    simp only [domStableLoop, if_pos hm]
    exact domStableLoop_settle s t 30 m rest hchain
  · intro evs1 evs2 time s t
    have hstruct : structuralTimes (evs1 ++ ⟨time, .attributes⟩ :: evs2) =
        structuralTimes (evs1 ++ evs2) := by
      simp [structuralTimes, List.filter_append, MutationType.isStructural]
    unfold domStableReturn
    rw [hstruct]

/-- Witness for C2: a quiet grace window returns at 30ms; a mutation at
10ms followed by one at 60ms returns at 160ms with settle 100ms and
timeout 2000ms; an attribute-only event in between changes nothing. -/
theorem waitForDomStable_spec_witness :
    domStableReturn [⟨40, .childList⟩] 100 2000 = 30 ∧
    domStableReturn [⟨10, .childList⟩, ⟨60, .childList⟩] 100 2000 = 160 ∧
    domStableReturn [⟨10, .childList⟩, ⟨20, .attributes⟩, ⟨60, .childList⟩] 100 2000 =
      domStableReturn [⟨10, .childList⟩, ⟨60, .childList⟩] 100 2000 := by
  refine ⟨?_, ?_, ?_⟩
  · exact waitForDomStable_spec.2.1 [⟨40, .childList⟩] 100 2000 (by decide) (by decide)
  · have h := waitForDomStable_spec.2.2.1 [⟨10, .childList⟩, ⟨60, .childList⟩]
      100 2000 10 [60] rfl (by decide) (by simp [List.chain'_cons])
    simpa using h
  · exact waitForDomStable_spec.2.2.2 [⟨10, .childList⟩] [⟨60, .childList⟩] 20 100 2000

theorem executeBatchFrom_length (h : Handlers) (g : Bool)
    (cmds : List BatchCommand) (n : Nat) :
    (executeBatchFrom h g n cmds).length = cmds.length := by
  induction cmds generalizing n with
  | nil => rfl
  | cons c rest ih => simp [executeBatchFrom, ih]

theorem executeBatchFrom_getElem? (h : Handlers) (g : Bool)
    (cmds : List BatchCommand) (n i : Nat) :
    (executeBatchFrom h g n cmds)[i]? =
      (cmds[i]?).map (fun c => mkBatchResult (n + i) c (executeCommand h g c)) := by
  induction cmds generalizing n i with
  | nil => simp [executeBatchFrom]
  | cons c rest ih =>
    cases i with
    | zero => simp [executeBatchFrom]
    | succ j =>
      simp only [executeBatchFrom, List.getElem?_cons_succ, ih (n + 1) j]
      have : n + 1 + j = n + (j + 1) := by omega
      rw [this]

/-- C5.  Batch execution reports exactly one result per input command, in
input order: result `i` carries index `i`, the command's name, and that
command's own success/failure tag (a success carries the handler's
result, a failure the error message) — so a failure at position `k`
leaves every later command's execution and report untouched. -/
theorem executeBatch_spec (h : Handlers) (g : Bool)
    (cmds : List BatchCommand) :
    (executeBatch h g cmds).length = cmds.length ∧
    ∀ i c, cmds[i]? = some c →
      ∃ r : BatchResult, (executeBatch h g cmds)[i]? = some r ∧
        r.index = i ∧ r.cmd = c.cmd ∧
        ((∃ v, executeCommand h g c = .ok v ∧
            r.success = true ∧ r.result = some v ∧ r.error = none) ∨
         (∃ e, executeCommand h g c = .error e ∧
            r.success = false ∧ r.result = none ∧ r.error = some e)) := by
  refine ⟨executeBatchFrom_length h g cmds 0, ?_⟩
  intro i c hc
  refine ⟨mkBatchResult i c (executeCommand h g c), ?_, ?_, ?_, ?_⟩
  · rw [executeBatch, executeBatchFrom_getElem? h g cmds 0 i, hc]
    simp
  · cases hx : executeCommand h g c <;> simp [mkBatchResult, hx]
  · cases hx : executeCommand h g c <;> simp [mkBatchResult, hx]
  · cases hx : executeCommand h g c with
    | ok v => exact Or.inl ⟨v, rfl, by simp [mkBatchResult, hx]⟩
    | error e => exact Or.inr ⟨e, rfl, by simp [mkBatchResult, hx]⟩

/-- Witness for C5 on a three-command batch whose middle command fails:
three results, and the third command is still executed and reported. -/
theorem executeBatch_spec_witness :
    (executeBatch sampleHandlers true sampleBatch).length = 3 ∧
    (∃ r : BatchResult, (executeBatch sampleHandlers true sampleBatch)[1]? = some r ∧
       r.index = 1 ∧ r.cmd = "eval" ∧
       ((∃ v, executeCommand sampleHandlers true
            { cmd := "eval", script := some "boom()" } = .ok v ∧
          r.success = true ∧ r.result = some v ∧ r.error = none) ∨
        (∃ e, executeCommand sampleHandlers true
            { cmd := "eval", script := some "boom()" } = .error e ∧
          r.success = false ∧ r.result = none ∧ r.error = some e))) ∧
    (∃ r : BatchResult, (executeBatch sampleHandlers true sampleBatch)[2]? = some r ∧
       r.index = 2 ∧ r.cmd = "sleep" ∧
       ((∃ v, executeCommand sampleHandlers true
            { cmd := "sleep", ms := some 5 } = .ok v ∧
          r.success = true ∧ r.result = some v ∧ r.error = none) ∨
        (∃ e, executeCommand sampleHandlers true
            { cmd := "sleep", ms := some 5 } = .error e ∧
          r.success = false ∧ r.result = none ∧ r.error = some e))) :=
  ⟨(executeBatch_spec sampleHandlers true sampleBatch).1,
   (executeBatch_spec sampleHandlers true sampleBatch).2 1 _ rfl,
   (executeBatch_spec sampleHandlers true sampleBatch).2 2 _ rfl⟩

/-- C6.  For every selector that matches no element in the page, the
click and type commands fail — with the webdriverio wait's
selector-naming timeout message when the pre-wait is on, and with the
handlers' own `Element not found: <selector>` message when it is off —
and neither command ever returns a success result. -/
theorem click_type_not_found (page : Page) (sel text : String)
    (autoWait : Bool) (timeout : Nat) (h : findElement page sel = none) :
    (autoWait = false →
       click page sel autoWait timeout = .error ("Element not found: " ++ sel) ∧
       typeText page sel text autoWait timeout =
         .error ("Element not found: " ++ sel)) ∧
    (autoWait = true →
       click page sel autoWait timeout =
         .error ("element (\"" ++ sel ++ "\") still not displayed after " ++
           toString timeout ++ "ms") ∧
       typeText page sel text autoWait timeout =
         .error ("element (\"" ++ sel ++ "\") still not displayed after " ++
           toString timeout ++ "ms")) ∧
    (∀ r, click page sel autoWait timeout ≠ .ok r) ∧
    (∀ r, typeText page sel text autoWait timeout ≠ .ok r) := by
  refine ⟨?_, ?_, ?_, ?_⟩
  · rintro rfl
    constructor <;> simp [click, typeText, h]
  · rintro rfl
    constructor <;> simp [click, typeText, waitForInteractive, h]
  · intro r
    cases autoWait <;> simp [click, typeText, waitForInteractive, h]
  · intro r
    cases autoWait <;> simp [click, typeText, waitForInteractive, h]

/-- Witness for C6 on a concrete page without the requested selector,
for both autoWait settings. -/
theorem click_type_not_found_witness :
    click [("#btn", ⟨true, true⟩)] "#missing" false 5000 =
      .error ("Element not found: " ++ "#missing") ∧
    typeText [("#btn", ⟨true, true⟩)] "#missing" "hi" false 5000 =
      .error ("Element not found: " ++ "#missing") ∧
    click [("#btn", ⟨true, true⟩)] "#missing" true 5000 =
      .error ("element (\"" ++ "#missing" ++ "\") still not displayed after " ++
        toString 5000 ++ "ms") ∧
    ∀ r, click [("#btn", ⟨true, true⟩)] "#missing" true 5000 ≠ .ok r := by
  have h := click_type_not_found [("#btn", ⟨true, true⟩)] "#missing" "hi" false 5000 rfl
  have h2 := click_type_not_found [("#btn", ⟨true, true⟩)] "#missing" "hi" true 5000 rfl
  exact ⟨(h.1 rfl).1, (h.1 rfl).2, (h2.2.1 rfl).1, h2.2.2.1⟩

/-- C9.  `buildTree` yields no node — and hence `toYaml` yields no output
line — for a script, style or noscript element, and likewise for any
element with no accessible name, no direct text, no surviving children
and a non-intrinsic tag (in particular an empty leaf `div`). -/
theorem snapshot_prune_spec (env : DocEnv) (tag : String)
    (attrs : List (String × String)) (style : StyleInfo) (hid : Bool)
    (children : List DomNode) (depth : Nat) :
    ((tag = "script" ∨ tag = "style" ∨ tag = "noscript") →
       buildTree env (.element tag attrs style hid children) depth = none ∧
       toYaml (buildTree env (.element tag attrs style hid children) depth) depth = "") ∧
    (getAccessibleName env tag attrs children = "" →
     directText children = "" →
     buildChildren env children (depth + 1) = [] →
     tag ∉ intrinsicTags →
       buildTree env (.element tag attrs style hid children) depth = none ∧
       toYaml (buildTree env (.element tag attrs style hid children) depth) depth = "") := by
  constructor
  · intro htag
    have hnone : buildTree env (.element tag attrs style hid children) depth = none := by
      rcases htag with rfl | rfl | rfl <;>
        · rw [buildTree]
          split
          · rfl
          · simp
    exact ⟨hnone, by rw [hnone]; rfl⟩
  · intro hname htext hkids hmem
    have hcontains : intrinsicTags.contains tag = false := by
      simpa using hmem
    have hnone : buildTree env (.element tag attrs style hid children) depth = none := by
      rw [buildTree]
      split
      · rfl
      · split
        · rfl
        · split
          · rfl
          · split
            · rfl
            · simp [hname, htext, hkids, hmem]
    exact ⟨hnone, by rw [hnone]; rfl⟩

/-- Witness for C9: an empty leaf div and a script element, inside a
document with no label elements, both produce no node and no output. -/
theorem snapshot_prune_spec_witness :
    buildTree ⟨fun _ => none, fun _ => none⟩
      (.element "div" [] ⟨"block", "visible"⟩ false []) 0 = none ∧
    toYaml (buildTree ⟨fun _ => none, fun _ => none⟩
      (.element "div" [] ⟨"block", "visible"⟩ false []) 0) 0 = "" ∧
    buildTree ⟨fun _ => none, fun _ => none⟩
      (.element "script" [("src", "x.js")] ⟨"block", "visible"⟩ false []) 0 = none := by
  have h1 := (snapshot_prune_spec ⟨fun _ => none, fun _ => none⟩ "div" []
    ⟨"block", "visible"⟩ false [] 0).2 rfl rfl rfl (by decide)
  have h2 := (snapshot_prune_spec ⟨fun _ => none, fun _ => none⟩ "script"
    [("src", "x.js")] ⟨"block", "visible"⟩ false [] 0).1 (Or.inl rfl)
  exact ⟨h1.1, h1.2, h2.1⟩

end TauriTest
